import Mathlib

/-!
Shallow embedding of the Trial-Auto-Caption-Bot repository
(`src/bot.py` and `src/config.py`).

The bot is a python-telegram-bot `ConversationHandler`; every handler is an
async function that reads `update.message`, mutates `context.chat_data`
(chat-scoped persistent dict) and `context.user_data` (per-user dict), sends
replies, and returns the next conversation state.  We model each handler as a
pure function from the incoming data (chat dict, user dict, message payload)
to the updated dicts, the list of outbound events, and the next state.

String operations are re-implemented over `List Char` with structural
recursion so that concrete instances reduce by `decide` / `rfl`:
- `pyStrip` models python `str.strip()` (ASCII whitespace);
- `splitLines` models `str.splitlines()` for `"\n"`-separated text (python
  also splits on `"\r"` and other unicode terminators; the inputs this
  program strips and re-strips line-wise make the difference unobservable
  for the properties below);
- `removeNonDigits` models `re.sub(r"\D", "", s)` for ASCII text;
- `zfill` models `str.zfill` (the python sign special-case is unreachable
  here: every value fed to `zfill` in the program either is digits-only or
  already has length ≥ 2 when it starts with a sign character);
- `replaceAllSub` models non-overlapping left-to-right substring
  replacement, and `renderCaption` models `str.format` restricted to the
  four placeholders `\x7btitle\x7d`, `\x7bseason\x7d`, `\x7bepisode\x7d`,
  `\x7bquality\x7d` (sequential replacement agrees with simultaneous
  substitution whenever the substituted values do not themselves contain a
  later placeholder token, which holds for all inputs considered here).
-/

namespace CaptionBot

/-- Python `str.strip()` whitespace set (ASCII members). -/
def isPySpace (c : Char) : Bool :=
  c = ' ' || c = '\t' || c = '\n' || c = '\r' || c = Char.ofNat 11 || c = Char.ofNat 12

def pyStripList (l : List Char) : List Char :=
  ((l.dropWhile isPySpace).reverse.dropWhile isPySpace).reverse

/-- Models python `str.strip()`. -/
def pyStrip (s : String) : String :=
  String.mk (pyStripList s.toList)

/-- Split a character list at every newline character. -/
def splitListOnNl : List Char → List (List Char)
  | [] => [[]]
  | c :: cs =>
    if c = '\n' then [] :: splitListOnNl cs
    else
      match splitListOnNl cs with
      | [] => [[c]]
      | l :: ls => (c :: l) :: ls

/-- Models python `str.splitlines()` on newline-separated text.
(For the empty string python returns `[]` while this returns `[""]`;
both fail the `len(lines) < 2` check in `receive_details` identically.) -/
def splitLines (s : String) : List String :=
  (splitListOnNl s.toList).map String.mk

/-- Models `re.sub(r"\D", "", s)`: keep only decimal digits. -/
def removeNonDigits (s : String) : String :=
  String.mk (s.toList.filter Char.isDigit)

/-- Models python `str.zfill(w)` on the values this program feeds it. -/
def zfill (w : Nat) (s : String) : String :=
  if w ≤ s.toList.length then s
  else String.mk (List.replicate (w - s.toList.length) '0' ++ s.toList)

/-- Models `re.search(r"\d+", s)` viewed as a boolean. -/
def containsDigit (s : String) : Bool :=
  s.toList.any Char.isDigit

/-- Whether `pat` occurs as a contiguous sublist of the second argument. -/
def listContainsSub (pat : List Char) : List Char → Bool
  | [] => pat.isEmpty
  | c :: cs => pat.isPrefixOf (c :: cs) || listContainsSub pat cs

/-- Models python `pat in s` (substring containment). -/
def strContainsSub (s pat : String) : Bool :=
  listContainsSub pat.toList s.toList

/-- Non-overlapping left-to-right replacement, fuelled by input length
(each step consumes at least one input character, so fuel = length
suffices). -/
def replaceFuel (pat rep : List Char) : Nat → List Char → List Char
  | 0, l => l
  | _ + 1, [] => []
  | n + 1, c :: cs =>
    if pat.isPrefixOf (c :: cs) then
      rep ++ replaceFuel pat rep n ((c :: cs).drop pat.length)
    else c :: replaceFuel pat rep n cs

/-- Models python `s.replace(pat, rep)` for non-empty `pat`. -/
def replaceAllSub (s pat rep : String) : String :=
  if pat.toList.isEmpty then s
  else String.mk (replaceFuel pat.toList rep.toList s.toList.length s.toList)

/-- Models `fmt.format(title=..., season=..., episode=..., quality=...)`
(bot.py line 125). -/
def renderCaption (fmt title season episode quality : String) : String :=
  replaceAllSub (replaceAllSub (replaceAllSub (replaceAllSub fmt
    "{title}" title) "{season}" season) "{episode}" episode) "{quality}" quality

/-! ## config.py -/

/-- Value of `DEFAULT_QUALITIES` (config.py line 7). -/
def DEFAULT_QUALITIES : List String := ["480p", "720p", "1080p"]

/-- Value of `DEFAULT_FORMAT` (config.py lines 10–12). -/
def DEFAULT_FORMAT : String :=
  "<b>[@Rear_Animes]</b> <b><i>{title} S{season}E{episode} - {quality}</i></b>"

/-! ## Data model -/

/-- Values of `context.chat_data["mode"]` (strings "EPISODE"/"SEASON" in the
source; these are the only two values ever stored). -/
inductive Mode where
  | episode
  | season
deriving DecidableEq, Repr

/-- Conversation states (bot.py line 21) plus `ConversationHandler.END`,
modelled as `done`. -/
inductive ConvState where
  | waitSticker
  | modeSelect
  | seasonCount
  | videos
  | details
  | done
deriving DecidableEq, Repr

/-- An incoming media attachment: `update.message.video` or
`update.message.document`, of which only `file_id` and `mime_type` are
read. -/
structure Media where
  fileId : String
  mimeType : String
deriving DecidableEq, Repr

/-- Model of `context.chat_data`: chat-scoped dict; `none` models an absent key
(reading it raises `KeyError`). -/
structure ChatData where
  mode : Option Mode
  seasonCount : Option Nat
  currentEp : Option Nat
  stickerId : Option String
  format : Option String
  qualities : Option (List String)
deriving DecidableEq, Repr

/-- Model of `context.user_data`: per-user dict; `videos = none` models the key being
absent (as after `user_data.clear()`). -/
structure UserData where
  videos : Option (List String)
deriving DecidableEq, Repr

/-- Outbound actions: `reply_text`, `reply_video` (file id and caption), and
`reply_sticker`. -/
inductive OutEvent where
  | text (s : String)
  | video (fileId : String) (caption : String)
  | sticker (fileId : String)
deriving DecidableEq, Repr

/-! ## Handlers -/

/-- Models `v.mime_type.split("/")[0]` (bot.py line 89). -/
def mimeCategory (m : String) : String :=
  String.mk (m.toList.takeWhile (fun c => c ≠ '/'))

/-- The four placeholders checked by `set_format_cmd` (bot.py line 54). -/
def requiredPlaceholders : List String :=
  ["{title}", "{season}", "{episode}", "{quality}"]

/-- Placeholder check of `set_format_cmd`: every placeholder must be a
substring of the template. -/
def templateValid (template : String) : Bool :=
  requiredPlaceholders.all (fun p => strContainsSub template p)

/-- Characters after the first space, if any: models
`text.split(" ", 1)[1]` together with the `len(parts) < 2` check
(`none` = no space, hence fewer than 2 parts). -/
def splitAtFirstSpace : List Char → Option (List Char)
  | [] => none
  | c :: cs => if c = ' ' then some cs else splitAtFirstSpace cs

/-- Handler `set_format_cmd` (bot.py lines 44–60): validates and stores a caption
template; every path returns `ConversationHandler.END`. -/
def setFormatCmd (chat : ChatData) (text : String) : ChatData × ConvState :=
  match splitAtFirstSpace text.toList with
  | none => (chat, ConvState.done)
  | some restChars =>
    let template := pyStrip (String.mk restChars)
    if template = "" then (chat, ConvState.done)
    else if templateValid template then
      ({ chat with format := some template }, ConvState.done)
    else (chat, ConvState.done)

/-- Handler `forepisode_start` (bot.py lines 62–67): sets EPISODE mode, clears all
of `user_data`, moves to VIDEOS. -/
def forepisodeStart (chat : ChatData) (_user : UserData) :
    ChatData × UserData × ConvState :=
  ({ chat with mode := some Mode.episode }, ⟨none⟩, ConvState.videos)

/-- Handler `forseason_start` (bot.py lines 69–73): sets SEASON mode, leaves
`user_data` untouched, moves to SEASON_COUNT. -/
def forseasonStart (chat : ChatData) (user : UserData) :
    ChatData × UserData × ConvState :=
  ({ chat with mode := some Mode.season }, user, ConvState.seasonCount)

/-- Handler `receive_videos` (bot.py lines 86–104).  The second component is the
next conversation state, `none` modelling an uncaught `KeyError` while
computing `needed` (which in the source happens after the append has
already mutated `user_data`). -/
def receiveVideos (chat : ChatData) (user : UserData) (m : Option Media) :
    UserData × Option ConvState :=
  match m with
  | none => (user, some ConvState.videos)
  | some v =>
    if mimeCategory v.mimeType = "video" then
      let vids := user.videos.getD [] ++ [v.fileId]
      let needed : Option Nat :=
        match chat.mode with
        | some Mode.episode => some 3
        | some Mode.season => chat.seasonCount.map (fun n => n * 3)
        | none => none
      (⟨some vids⟩,
       needed.map (fun k => if k ≤ vids.length then ConvState.details else ConvState.videos))
    else (user, some ConvState.videos)

/-- Models `qualities[i] if i < len(qualities) else qualities[-1]`
(bot.py line 124); `none` models the `IndexError` on an empty list. -/
def qualAt (qs : List String) (i : Nat) : Option String :=
  if i < qs.length then qs[i]? else qs.getLast?

/-- The announcement sent at the top of `send_batch` (bot.py line 121). -/
def announceText (epStr : String) : String :=
  "<b>Episode " ++ epStr ++ " Added...!</b>"

def stickerEvents : Option String → List OutEvent
  | some s => [OutEvent.sticker s]
  | none => []

/-- The captioned-video loop of `send_batch` (bot.py lines 123–128),
indexed from `i` (python `enumerate`). -/
def batchCaptions (fmt title season epStr : String) (qs : List String) :
    Nat → List String → Option (List OutEvent)
  | _, [] => some []
  | i, fid :: rest =>
    match qualAt qs i with
    | none => none
    | some q =>
      match batchCaptions fmt title season epStr qs (i + 1) rest with
      | none => none
      | some tail =>
        some (OutEvent.video fid (renderCaption fmt title season epStr q) :: tail)

/-- Models `send_batch(ep_num, batch)` (bot.py lines 119–130): announcement, then
one captioned video per batch element, then the sticker if registered.
`epRaw` is `str(ep_num)`; `zfill 2` is applied inside, as in the source. -/
def sendBatch (fmt title season : String) (qs : List String)
    (sticker : Option String) (epRaw : String) (batch : List String) :
    Option (List OutEvent) :=
  match batchCaptions fmt title season (zfill 2 epRaw) qs 0 batch with
  | none => none
  | some caps =>
    some (OutEvent.text (announceText (zfill 2 epRaw)) :: (caps ++ stickerEvents sticker))

/-- The SEASON-mode loop `for ep in range(1, total+1)` (bot.py lines
138–141), with `e` the zero-based index (`ep = e + 1`,
`start = e * 3`) and the second argument the number of iterations left. -/
def seasonLoop (fmt title season : String) (qs : List String)
    (sticker : Option String) (vids : List String) :
    Nat → Nat → Option (List OutEvent)
  | _, 0 => some []
  | e, k + 1 =>
    match sendBatch fmt title season qs sticker (toString (e + 1))
        ((vids.drop (3 * e)).take 3) with
    | none => none
    | some evs =>
      match seasonLoop fmt title season qs sticker vids (e + 1) k with
      | none => none
      | some rest => some (evs ++ rest)

/-- The final broadcast (bot.py lines 144–147): the same message three
times. -/
def broadcastEvents : List OutEvent :=
  List.replicate 3 (OutEvent.text "<b>Main channel : [ @INFI1984 ]</b>")

/-- Models `season = re.sub(r"\D", "", lines[1]).zfill(2)` (bot.py line 113). -/
def seasonNormalize (line : String) : String :=
  zfill 2 (removeNonDigits line)

/-- The body of `receive_details` (bot.py lines 108–148) up to the
`except` clause; `none` is any raised exception (`ValueError` on fewer
than 2 lines, `KeyError` on a missing `videos`/`mode`/`season_count` key,
`IndexError` on an empty quality list). -/
def receiveDetailsCore (chat : ChatData) (user : UserData) (text : String) :
    Option (List OutEvent) :=
  let lines := splitLines (pyStrip text)
  if lines.length < 2 then none
  else
    let title := pyStrip (lines.getD 0 "")
    let season := seasonNormalize (lines.getD 1 "")
    let qs := chat.qualities.getD DEFAULT_QUALITIES
    let fmt := chat.format.getD DEFAULT_FORMAT
    let sticker := chat.stickerId
    match user.videos with
    | none => none
    | some vids =>
      match chat.mode with
      | none => none
      | some Mode.episode =>
        let epRaw :=
          if lines.length > 2 && containsDigit (lines.getD 2 "") then
            pyStrip (lines.getD 2 "")
          else "1"
        match sendBatch fmt title season qs sticker epRaw (vids.take 3) with
        | none => none
        | some evs => some (evs ++ broadcastEvents)
      | some Mode.season =>
        match chat.seasonCount with
        | none => none
        | some total =>
          match seasonLoop fmt title season qs sticker vids 0 total with
          | none => none
          | some evs => some (evs ++ broadcastEvents)

/-- The error reply of `receive_details`' `except` branch (bot.py line
152); the python message interpolates the exception text, which no claim
depends on, so it is modelled as one constant event. -/
def detailsErrorEvent : OutEvent :=
  OutEvent.text "<error> Use /start to retry."

/-- Handler `receive_details` as a whole: the `try` body on success, the `except`
branch on any failure; both return `ConversationHandler.END` (bot.py lines
148 and 153). -/
def receiveDetails (chat : ChatData) (user : UserData) (text : String) :
    List OutEvent × ConvState :=
  match receiveDetailsCore chat user text with
  | some evs => (evs, ConvState.done)
  | none => ([detailsErrorEvent], ConvState.done)

/-- Handler `cancel` (bot.py lines 155–158): replies and returns END; neither
`user_data` nor `chat_data` is touched. -/
def cancel (chat : ChatData) (user : UserData) : ChatData × UserData × ConvState :=
  (chat, user, ConvState.done)

/-! ## Observation helpers for statements -/

/-- File ids of the `reply_video` events, in emission order. -/
def videoFileIds : List OutEvent → List String
  | [] => []
  | OutEvent.video fid _ :: rest => fid :: videoFileIds rest
  | OutEvent.text _ :: rest => videoFileIds rest
  | OutEvent.sticker _ :: rest => videoFileIds rest

/-- Captions of the `reply_video` events, in emission order. -/
def videoCaptions : List OutEvent → List String
  | [] => []
  | OutEvent.video _ cap :: rest => cap :: videoCaptions rest
  | OutEvent.text _ :: rest => videoCaptions rest
  | OutEvent.sticker _ :: rest => videoCaptions rest

/-- Total (quality-defaulted) form of the caption loop; coincides with
`batchCaptions` whenever the quality list is non-empty. -/
def plainCaps (fmt title season epStr : String) (qs : List String) :
    Nat → List String → List OutEvent
  | _, [] => []
  | i, fid :: rest =>
    OutEvent.video fid (renderCaption fmt title season epStr ((qualAt qs i).getD "")) ::
      plainCaps fmt title season epStr qs (i + 1) rest

/-- The expected event block for season episode `m + 1` (`m` zero-based):
announcement, then the `m`-th consecutive group of 3 videos captioned with
episode `m + 1` zero-padded to two digits, then the sticker if present. -/
def seasonBlock (fmt title season : String) (qs : List String)
    (sticker : Option String) (vids : List String) (m : Nat) : List OutEvent :=
  OutEvent.text (announceText (zfill 2 (toString (m + 1)))) ::
    (plainCaps fmt title season (zfill 2 (toString (m + 1))) qs 0
        ((vids.drop (3 * m)).take 3) ++ stickerEvents sticker)

/-- First contiguous run of decimal digits of a character list. -/
def firstDigitRun (l : List Char) : List Char :=
  (l.dropWhile (fun c => !c.isDigit)).takeWhile Char.isDigit

/-- Modelled from the spec (§4.1 together with the `AWAIT_DETAILS` line-2
policy): extract the FIRST contiguous digit run, default `"01"` when the
extraction is empty, left-zero-pad to width 2.  This is the spec's claimed
season normalization, to be compared with `seasonNormalize` (the code's). -/
def specSeasonNormalize (line : String) : String :=
  let d := firstDigitRun line.toList
  if d.isEmpty then zfill 2 "01" else zfill 2 (String.mk d)

/-- Maximal digit runs of a character list, in order (`acc` holds the
current run reversed). -/
def digitRunsAux : List Char → List Char → List (List Char)
  | [], acc => if acc.isEmpty then [] else [acc.reverse]
  | c :: cs, acc =>
    if c.isDigit then digitRunsAux cs (c :: acc)
    else if acc.isEmpty then digitRunsAux cs []
    else acc.reverse :: digitRunsAux cs []

/-- All maximal digit runs of a character list, in order. -/
def digitRuns (l : List Char) : List (List Char) :=
  digitRunsAux l []

/-! ## Concrete sessions used in counterexamples and witnesses -/

/-- A chat mid-EPISODE-flow with default configuration. -/
def chatEpisodeBare : ChatData :=
  ⟨some Mode.episode, none, none, none, none, none⟩

/-- A user who has uploaded exactly 3 accepted videos. -/
def userThreeVids : UserData :=
  ⟨some ["fidA", "fidB", "fidC"]⟩

/-- A chat mid-SEASON-flow with `season_count = 2` and default
configuration. -/
def chatSeasonTwo : ChatData :=
  ⟨some Mode.season, some 2, some 1, none, none, none⟩

/-- A user who has uploaded 6 accepted videos. -/
def userSixVids : UserData :=
  ⟨some ["a", "b", "c", "d", "e", "f"]⟩

/-- A chat with a registered sticker and caption template. -/
def chatWithPrefs : ChatData :=
  ⟨some Mode.episode, none, none, some "stk1", some "customfmt", none⟩

/-! ## Helper lemmas -/

theorem mk_toList (s : String) : String.mk s.toList = s :=
  rfl

theorem toList_append (a b : String) : (a ++ b).toList = a.toList ++ b.toList :=
  rfl

theorem qualAt_isSome (qs : List String) (h : qs ≠ []) (i : Nat) :
    (qualAt qs i).isSome = true := by
  unfold qualAt
  split
  · rename_i hi
    simp [List.getElem?_eq_getElem hi]
  · simp [List.getLast?_eq_getLast qs h]

theorem batchCaptions_eq_plainCaps (fmt title season epStr : String)
    (qs : List String) (h : qs ≠ []) :
    ∀ (batch : List String) (i : Nat),
      batchCaptions fmt title season epStr qs i batch =
        some (plainCaps fmt title season epStr qs i batch) := by
  intro batch
  induction batch with
  | nil => intro i; rfl
  | cons fid rest ih =>
    intro i
    obtain ⟨q, hq⟩ := Option.isSome_iff_exists.mp (qualAt_isSome qs h i)
    simp [batchCaptions, plainCaps, hq, ih (i + 1)]

theorem sendBatch_eq (fmt title season : String) (qs : List String)
    (sticker : Option String) (h : qs ≠ []) (epRaw : String) (batch : List String) :
    sendBatch fmt title season qs sticker epRaw batch =
      some (OutEvent.text (announceText (zfill 2 epRaw)) ::
        (plainCaps fmt title season (zfill 2 epRaw) qs 0 batch ++ stickerEvents sticker)) := by
  simp [sendBatch, batchCaptions_eq_plainCaps fmt title season (zfill 2 epRaw) qs h batch 0]

theorem sendBatch_isSome_of_ne_nil (fmt title season : String) (qs : List String)
    (sticker : Option String) (h : qs ≠ []) (epRaw : String) (batch : List String) :
    (sendBatch fmt title season qs sticker epRaw batch).isSome = true := by
  rw [sendBatch_eq fmt title season qs sticker h epRaw batch]
  rfl

theorem seasonLoop_eq (fmt title season : String) (qs : List String)
    (sticker : Option String) (vids : List String) (h : qs ≠ []) :
    ∀ (k e : Nat),
      seasonLoop fmt title season qs sticker vids e k =
        some (((List.range k).map
          (fun j => seasonBlock fmt title season qs sticker vids (e + j))).flatten) := by
  intro k
  induction k with
  | zero => intro e; rfl
  | succ k ih =>
    intro e
    have hhead : OutEvent.text (announceText (zfill 2 (toString (e + 1)))) ::
        (plainCaps fmt title season (zfill 2 (toString (e + 1))) qs 0
          ((vids.drop (3 * e)).take 3) ++ stickerEvents sticker) =
        seasonBlock fmt title season qs sticker vids e := rfl
    have htail : (List.range k).map
        ((fun j => seasonBlock fmt title season qs sticker vids (e + j)) ∘ Nat.succ) =
        (List.range k).map (fun j => seasonBlock fmt title season qs sticker vids (e + 1 + j)) :=
      List.map_congr_left (fun j _ => by
        simp only [Function.comp_apply]
        rw [show e + Nat.succ j = e + 1 + j by omega])
    rw [seasonLoop,
      sendBatch_eq fmt title season qs sticker h (toString (e + 1)) ((vids.drop (3 * e)).take 3),
      ih (e + 1), List.range_succ_eq_map, List.map_cons, List.map_map, htail,
      List.flatten_cons, hhead]
    rfl

theorem videoFileIds_append (a b : List OutEvent) :
    videoFileIds (a ++ b) = videoFileIds a ++ videoFileIds b := by
  induction a with
  | nil => rfl
  | cons e rest ih => cases e <;> simp [videoFileIds, ih]

theorem videoFileIds_plainCaps (fmt title season epStr : String) (qs : List String) :
    ∀ (batch : List String) (i : Nat),
      videoFileIds (plainCaps fmt title season epStr qs i batch) = batch := by
  intro batch
  induction batch with
  | nil => intro i; rfl
  | cons fid rest ih => intro i; simp [plainCaps, videoFileIds, ih (i + 1)]

theorem videoFileIds_stickerEvents (st : Option String) :
    videoFileIds (stickerEvents st) = [] := by
  cases st <;> rfl

theorem videoFileIds_broadcast : videoFileIds broadcastEvents = [] :=
  rfl

theorem videoFileIds_flatten (L : List (List OutEvent)) :
    videoFileIds L.flatten = (L.map videoFileIds).flatten := by
  induction L with
  | nil => rfl
  | cons a L ih => simp [List.flatten_cons, videoFileIds_append, ih]

theorem videoFileIds_seasonBlock (fmt title season : String) (qs : List String)
    (sticker : Option String) (vids : List String) (m : Nat) :
    videoFileIds (seasonBlock fmt title season qs sticker vids m) =
      (vids.drop (3 * m)).take 3 := by
  simp [seasonBlock, videoFileIds, videoFileIds_append, videoFileIds_plainCaps,
    videoFileIds_stickerEvents]

theorem range_take3_flatten {α : Type} :
    ∀ (n : Nat) (l : List α),
      ((List.range n).map (fun k => (l.drop (3 * k)).take 3)).flatten = l.take (3 * n) := by
  intro n
  induction n with
  | zero => intro l; rfl
  | succ n ih =>
    intro l
    rw [List.range_succ_eq_map, List.map_cons, List.map_map]
    have hmap : (List.range n).map ((fun k => (l.drop (3 * k)).take 3) ∘ Nat.succ) =
        (List.range n).map (fun k => ((l.drop 3).drop (3 * k)).take 3) :=
      List.map_congr_left (fun k _ => by
        simp [Function.comp, List.drop_drop, show 3 * Nat.succ k = 3 + 3 * k by omega])
    rw [hmap, List.flatten_cons, ih (l.drop 3),
      show 3 * (n + 1) = 3 + 3 * n by omega, List.take_add]
    simp

theorem season_fileIds (fmt title season : String) (qs : List String)
    (st : Option String) (vids : List String) (n : Nat) (hlen : vids.length = 3 * n) :
    videoFileIds (((List.range n).map (seasonBlock fmt title season qs st vids)).flatten
      ++ broadcastEvents) = vids := by
  rw [videoFileIds_append, videoFileIds_broadcast, videoFileIds_flatten, List.map_map]
  have hmap : (List.range n).map (videoFileIds ∘ seasonBlock fmt title season qs st vids) =
      (List.range n).map (fun k => (vids.drop (3 * k)).take 3) :=
    List.map_congr_left (fun k _ => by
      simp only [Function.comp_apply]
      exact videoFileIds_seasonBlock fmt title season qs st vids k)
  rw [hmap, range_take3_flatten n vids, ← hlen, List.take_length, List.append_nil]

theorem receiveDetailsCore_season (chat : ChatData) (user : UserData) (text : String)
    (n : Nat) (vids : List String) (l1 l2 : String) (rest : List String)
    (hm : chat.mode = some Mode.season)
    (hn : chat.seasonCount = some n)
    (hv : user.videos = some vids)
    (hq : chat.qualities.getD DEFAULT_QUALITIES ≠ [])
    (hl : splitLines (pyStrip text) = l1 :: l2 :: rest) :
    receiveDetailsCore chat user text =
      some (((List.range n).map (seasonBlock (chat.format.getD DEFAULT_FORMAT)
          (pyStrip l1) (seasonNormalize l2) (chat.qualities.getD DEFAULT_QUALITIES)
          chat.stickerId vids)).flatten ++ broadcastEvents) := by
  have hloop := seasonLoop_eq (chat.format.getD DEFAULT_FORMAT) (pyStrip l1)
    (seasonNormalize l2) (chat.qualities.getD DEFAULT_QUALITIES) chat.stickerId vids hq n 0
  simp only [receiveDetailsCore, hl, hm, hn, hv, List.length_cons, List.getD_cons_zero,
    List.getD_cons_succ]
  rw [if_neg (by omega), hloop]
  simp only [Nat.zero_add]

theorem digitRunsAux_flatten :
    ∀ (l acc : List Char),
      (digitRunsAux l acc).flatten = acc.reverse ++ l.filter Char.isDigit := by
  intro l
  induction l with
  | nil =>
    intro acc
    by_cases h : acc.isEmpty
    · simp [digitRunsAux, h, List.isEmpty_iff.mp h]
    · simp [digitRunsAux, h]
  | cons c cs ih =>
    intro acc
    by_cases hc : c.isDigit
    · simp [digitRunsAux, hc, ih (c :: acc), List.filter_cons, List.reverse_cons]
    · by_cases ha : acc.isEmpty
      · simp [digitRunsAux, hc, ha, ih [], List.filter_cons, List.isEmpty_iff.mp ha]
      · simp [digitRunsAux, hc, ha, ih [], List.filter_cons]

/-! ## Claims -/

/-- C1, counterexample: in EPISODE mode with 3 accepted videos and details
`"Naruto\nS05\nE12"`, the dispatch does produce exactly 3 captions, but
none of them contains the marker `"S05E12"`: the third detail line is used
raw as the episode value, so the rendered marker is `"S05EE12"`. -/
theorem c1_marker_counterexample :
    (videoCaptions ((receiveDetailsCore chatEpisodeBare userThreeVids
        "Naruto\nS05\nE12").getD [])).length = 3 ∧
    strContainsSub ((videoCaptions ((receiveDetailsCore chatEpisodeBare userThreeVids
        "Naruto\nS05\nE12").getD [])).getD 0 "") "S05E12" = false ∧
    strContainsSub ((videoCaptions ((receiveDetailsCore chatEpisodeBare userThreeVids
        "Naruto\nS05\nE12").getD [])).getD 1 "") "S05E12" = false ∧
    strContainsSub ((videoCaptions ((receiveDetailsCore chatEpisodeBare userThreeVids
        "Naruto\nS05\nE12").getD [])).getD 2 "") "S05E12" = false := by
  decide

/-- C1, amended: in EPISODE mode with exactly 3 accepted videos and details
`["Naruto", "S05", "E12"]`, dispatch produces exactly 3 captions, in upload
order, each containing the title `"Naruto"`, the marker `"S05EE12"` (the
episode field is the raw third line `"E12"`), and the quality labels
`"480p"`, `"720p"`, `"1080p"` respectively. -/
theorem c1_episode_captions :
    receiveDetailsCore chatEpisodeBare userThreeVids "Naruto\nS05\nE12" =
      some [OutEvent.text "<b>Episode E12 Added...!</b>",
        OutEvent.video "fidA" "<b>[@Rear_Animes]</b> <b><i>Naruto S05EE12 - 480p</i></b>",
        OutEvent.video "fidB" "<b>[@Rear_Animes]</b> <b><i>Naruto S05EE12 - 720p</i></b>",
        OutEvent.video "fidC" "<b>[@Rear_Animes]</b> <b><i>Naruto S05EE12 - 1080p</i></b>",
        OutEvent.text "<b>Main channel : [ @INFI1984 ]</b>",
        OutEvent.text "<b>Main channel : [ @INFI1984 ]</b>",
        OutEvent.text "<b>Main channel : [ @INFI1984 ]</b>"] ∧
    videoFileIds ((receiveDetailsCore chatEpisodeBare userThreeVids
        "Naruto\nS05\nE12").getD []) = ["fidA", "fidB", "fidC"] ∧
    strContainsSub "<b>[@Rear_Animes]</b> <b><i>Naruto S05EE12 - 480p</i></b>" "Naruto" = true ∧
    strContainsSub "<b>[@Rear_Animes]</b> <b><i>Naruto S05EE12 - 480p</i></b>" "S05EE12" = true ∧
    strContainsSub "<b>[@Rear_Animes]</b> <b><i>Naruto S05EE12 - 480p</i></b>" "480p" = true ∧
    strContainsSub "<b>[@Rear_Animes]</b> <b><i>Naruto S05EE12 - 720p</i></b>" "S05EE12" = true ∧
    strContainsSub "<b>[@Rear_Animes]</b> <b><i>Naruto S05EE12 - 720p</i></b>" "720p" = true ∧
    strContainsSub "<b>[@Rear_Animes]</b> <b><i>Naruto S05EE12 - 1080p</i></b>" "S05EE12" = true ∧
    strContainsSub "<b>[@Rear_Animes]</b> <b><i>Naruto S05EE12 - 1080p</i></b>" "1080p" = true := by
  decide

/-- C2, counterexample: the code's season normalization (bot.py line 113)
concatenates ALL digit runs of line 2 and has no `"01"` default, so on
line 2 `"S1x2"` it yields `"12"` while the claimed
first-run-with-default rule yields `"01"`. -/
theorem c2_first_run_counterexample :
    seasonNormalize "S1x2" = "12" ∧
    specSeasonNormalize "S1x2" = "01" ∧
    seasonNormalize "S1x2" ≠ specSeasonNormalize "S1x2" ∧
    seasonNormalize "abc" = "00" ∧
    specSeasonNormalize "abc" = "01" := by
  decide

/-- C2, amended: for every details text, the normalized season string is
obtained by concatenating ALL maximal digit runs of line 2 (equivalently,
deleting every non-digit character) and left-zero-padding to width 2; when
line 2 contains no digits the result is `"00"` (there is no `"01"`
default). -/
theorem c2_season_all_runs (line : String) :
    seasonNormalize line = zfill 2 (String.mk (digitRuns line.toList).flatten) ∧
    (line.toList.all (fun c => !c.isDigit) = true → seasonNormalize line = "00") := by
  constructor
  · rw [seasonNormalize, removeNonDigits, digitRuns, digitRunsAux_flatten line.toList []]
    rfl
  · intro h
    have hfil : line.toList.filter Char.isDigit = [] := by
      rw [List.filter_eq_nil_iff]
      intro a ha
      have := List.all_eq_true.mp h a ha
      simpa using this
    rw [seasonNormalize, removeNonDigits, hfil]
    decide

/-- C2, witness for the amended theorem at line 2 = `"xyz"`. -/
theorem c2_season_all_runs_witness :
    (seasonNormalize "xyz" = zfill 2 (String.mk (digitRuns "xyz".toList).flatten) ∧
      ("xyz".toList.all (fun c => !c.isDigit) = true → seasonNormalize "xyz" = "00")) ∧
    seasonNormalize "xyz" = "00" :=
  ⟨c2_season_all_runs "xyz", (c2_season_all_runs "xyz").2 (by decide)⟩

/-- C3, counterexample: on a details input with fewer than 2 lines the
handler does NOT remain in the DETAILS state: it replies with an error and
returns `ConversationHandler.END`, terminating the session. -/
theorem c3_terminates_counterexample :
    receiveDetails chatEpisodeBare userThreeVids "OnlyTitle" =
      ([detailsErrorEvent], ConvState.done) ∧
    ConvState.done ≠ ConvState.details := by
  decide

/-- C3, amended: for every details input that fails validation (fewer than
2 lines after stripping and splitting), `receive_details` replies with an
error message telling the user to retry via `/start` and terminates the
conversation (returns END); it does not stay in `AWAIT_DETAILS`.  (The
other claimed failure mode — season/episode non-numeric after
normalization — cannot occur, since normalization deletes all non-digit
characters.) -/
theorem c3_validation_ends (chat : ChatData) (user : UserData) (text : String)
    (h : (splitLines (pyStrip text)).length < 2) :
    receiveDetails chat user text = ([detailsErrorEvent], ConvState.done) ∧
    ConvState.done ≠ ConvState.details := by
  refine ⟨?_, by decide⟩
  rw [receiveDetails, receiveDetailsCore]
  simp only [if_pos h]

/-- C3, witness for the amended theorem at the one-line input `"T"`. -/
theorem c3_validation_ends_witness :
    receiveDetails chatEpisodeBare ⟨some ["x", "y", "z"]⟩ "T" =
      ([detailsErrorEvent], ConvState.done) ∧
    ConvState.done ≠ ConvState.details :=
  c3_validation_ends chatEpisodeBare ⟨some ["x", "y", "z"]⟩ "T" (by decide)

/-- C4, counterexample: cancelling with a registered sticker and template
and 3 collected videos leaves the video list exactly as it was — `cancel`
does NOT clear it (neither to `[]` nor by removing the key). -/
theorem c4_no_clear_counterexample :
    (cancel chatWithPrefs userThreeVids).2.1.videos = some ["fidA", "fidB", "fidC"] ∧
    (cancel chatWithPrefs userThreeVids).2.1.videos ≠ some [] ∧
    (cancel chatWithPrefs userThreeVids).2.1.videos ≠ none ∧
    (cancel chatWithPrefs userThreeVids).1.stickerId = some "stk1" ∧
    (cancel chatWithPrefs userThreeVids).1.format = some "customfmt" := by
  decide

/-- C4, amended: for every session state, the cancel operation leaves the
entire session untouched — the collected video list as well as the
chat-scoped sticker reference and caption template — and merely ends the
conversation (the video list is cleared only by a later `/forepisode`). -/
theorem c4_cancel_frame (chat : ChatData) (user : UserData) :
    cancel chat user = (chat, user, ConvState.done) :=
  rfl

/-- C5: in SEASON mode with `season_count = n` and `3 * n` collected
videos, dispatch emits, for each `k < n` in order, the block
`seasonBlock … k`: an episode-added announcement for episode `k + 1`
(zero-padded to 2 digits) immediately followed by the `k`-th consecutive
group of exactly 3 videos in collection order, captioned with episode
`k + 1`; the video events taken together are exactly the collected list in
order, followed by the closing broadcasts. -/
theorem c5_season_partition (chat : ChatData) (user : UserData) (text : String)
    (n : Nat) (vids : List String) (l1 l2 : String) (rest : List String) (k : Nat)
    (hm : chat.mode = some Mode.season)
    (hn : chat.seasonCount = some n)
    (hv : user.videos = some vids)
    (hq : chat.qualities.getD DEFAULT_QUALITIES ≠ [])
    (hl : splitLines (pyStrip text) = l1 :: l2 :: rest)
    (hlen : vids.length = 3 * n)
    (hk : k < n) :
    receiveDetailsCore chat user text =
      some (((List.range n).map (seasonBlock (chat.format.getD DEFAULT_FORMAT)
          (pyStrip l1) (seasonNormalize l2) (chat.qualities.getD DEFAULT_QUALITIES)
          chat.stickerId vids)).flatten ++ broadcastEvents) ∧
    ((vids.drop (3 * k)).take 3).length = 3 ∧
    videoFileIds (((List.range n).map (seasonBlock (chat.format.getD DEFAULT_FORMAT)
          (pyStrip l1) (seasonNormalize l2) (chat.qualities.getD DEFAULT_QUALITIES)
          chat.stickerId vids)).flatten ++ broadcastEvents) = vids := by
  refine ⟨receiveDetailsCore_season chat user text n vids l1 l2 rest hm hn hv hq hl, ?_,
    season_fileIds _ _ _ _ _ vids n hlen⟩
  rw [List.length_take, List.length_drop, hlen]
  omega

/-- C5, witness: `season_count = 2` with 6 accepted videos and details
`"Show\nS01"`. -/
theorem c5_season_partition_witness :
    (receiveDetailsCore chatSeasonTwo userSixVids "Show\nS01" =
      some (((List.range 2).map (seasonBlock (chatSeasonTwo.format.getD DEFAULT_FORMAT)
          (pyStrip "Show") (seasonNormalize "S01")
          (chatSeasonTwo.qualities.getD DEFAULT_QUALITIES)
          chatSeasonTwo.stickerId ["a", "b", "c", "d", "e", "f"])).flatten
        ++ broadcastEvents)) ∧
    (((["a", "b", "c", "d", "e", "f"].drop (3 * 1)).take 3).length = 3) ∧
    videoFileIds (((List.range 2).map (seasonBlock (chatSeasonTwo.format.getD DEFAULT_FORMAT)
          (pyStrip "Show") (seasonNormalize "S01")
          (chatSeasonTwo.qualities.getD DEFAULT_QUALITIES)
          chatSeasonTwo.stickerId ["a", "b", "c", "d", "e", "f"])).flatten
        ++ broadcastEvents) = ["a", "b", "c", "d", "e", "f"] :=
  c5_season_partition chatSeasonTwo userSixVids "Show\nS01" 2
    ["a", "b", "c", "d", "e", "f"] "Show" "S01" [] 1
    rfl rfl rfl (by decide) (by decide) (by decide) (by decide)

/-- C6: `/setformat` stores the (stripped, non-empty) template if and only
if the placeholder validation passes, and the validation passes if and
only if all four placeholder tokens occur as substrings; a template
missing any of the four is rejected and the stored format is unchanged. -/
theorem c6_format_validation (chat : ChatData) (template : String)
    (h1 : pyStrip template = template) (h2 : template ≠ "") :
    setFormatCmd chat ("/setformat " ++ template) =
      ((if templateValid template then { chat with format := some template } else chat),
        ConvState.done) ∧
    (templateValid template = true ↔
      (strContainsSub template "{title}" = true ∧
       strContainsSub template "{season}" = true ∧
       strContainsSub template "{episode}" = true ∧
       strContainsSub template "{quality}" = true)) := by
  constructor
  · have hsplit : splitAtFirstSpace ("/setformat " ++ template).toList =
        some template.toList := rfl
    rw [setFormatCmd, hsplit]
    simp only [mk_toList, h1, if_neg h2]
    by_cases hv : templateValid template <;> simp [hv]
  · simp [templateValid, requiredPlaceholders, and_assoc]

/-- C6, witness at a valid template (all four placeholders, extra text). -/
theorem c6_format_validation_witness :
    (setFormatCmd chatEpisodeBare
        ("/setformat " ++ "x {title} {season} {episode} {quality}") =
      ((if templateValid "x {title} {season} {episode} {quality}" then
          { chatEpisodeBare with format := some "x {title} {season} {episode} {quality}" }
        else chatEpisodeBare), ConvState.done)) ∧
    (templateValid "x {title} {season} {episode} {quality}" = true ↔
      (strContainsSub "x {title} {season} {episode} {quality}" "{title}" = true ∧
       strContainsSub "x {title} {season} {episode} {quality}" "{season}" = true ∧
       strContainsSub "x {title} {season} {episode} {quality}" "{episode}" = true ∧
       strContainsSub "x {title} {season} {episode} {quality}" "{quality}" = true)) :=
  c6_format_validation chatEpisodeBare "x {title} {season} {episode} {quality}"
    (by decide) (by decide)

/-- C7: during video collection, an input with no attachment, or whose
MIME top-level category is not `"video"`, leaves the collected list and
the VIDEOS state unchanged; an attachment whose category is `"video"`
(video or document alike) appends exactly one entry. -/
theorem c7_mime_filter (chat : ChatData) (user : UserData) (v : Media) :
    receiveVideos chat user none = (user, some ConvState.videos) ∧
    (mimeCategory v.mimeType ≠ "video" →
      receiveVideos chat user (some v) = (user, some ConvState.videos)) ∧
    (mimeCategory v.mimeType = "video" →
      (receiveVideos chat user (some v)).1.videos =
        some (user.videos.getD [] ++ [v.fileId])) := by
  refine ⟨rfl, ?_, ?_⟩
  · intro h
    simp [receiveVideos, h]
  · intro h
    simp [receiveVideos, h]

/-- C7, witness: a PDF document is ignored; an mp4 video is appended. -/
theorem c7_mime_filter_witness :
    receiveVideos chatEpisodeBare ⟨some ["k1"]⟩ (some ⟨"d1", "application/pdf"⟩) =
      (⟨some ["k1"]⟩, some ConvState.videos) ∧
    (receiveVideos chatEpisodeBare ⟨some ["k1"]⟩ (some ⟨"v9", "video/mp4"⟩)).1.videos =
      some ["k1", "v9"] :=
  ⟨(c7_mime_filter chatEpisodeBare ⟨some ["k1"]⟩ ⟨"d1", "application/pdf"⟩).2.1 (by decide),
   (c7_mime_filter chatEpisodeBare ⟨some ["k1"]⟩ ⟨"v9", "video/mp4"⟩).2.2 (by decide)⟩

/-- C8: for every digits-only input of 1 or 2 characters, the normalized
season/episode value is exactly 2 characters, obtained by left-padding
with zeros. -/
theorem c8_two_digit_pad (s : String) (hd : s.toList.all Char.isDigit = true)
    (h1 : 1 ≤ s.toList.length) (h2 : s.toList.length ≤ 2) :
    (seasonNormalize s).toList.length = 2 ∧
    seasonNormalize s = String.mk (List.replicate (2 - s.toList.length) '0' ++ s.toList) := by
  have hfil : s.toList.filter Char.isDigit = s.toList :=
    List.filter_eq_self.mpr (fun a ha => List.all_eq_true.mp hd a ha)
  have hrm : removeNonDigits s = s := by rw [removeNonDigits, hfil, mk_toList]
  rw [seasonNormalize, hrm, zfill]
  rcases (show s.toList.length = 1 ∨ s.toList.length = 2 by omega) with hlen | hlen
  · rw [if_neg (by omega)]
    constructor
    · show (List.replicate (2 - s.toList.length) '0' ++ s.toList).length = 2
      rw [List.length_append, List.length_replicate]
      omega
    · rfl
  · rw [if_pos (by omega)]
    refine ⟨hlen, ?_⟩
    rw [hlen]
    exact (mk_toList s).symm

/-- C8, witness: `"5"` normalizes to the 2-character `"05"`. -/
theorem c8_two_digit_pad_witness :
    ((seasonNormalize "5").toList.length = 2 ∧
      seasonNormalize "5" =
        String.mk (List.replicate (2 - "5".toList.length) '0' ++ "5".toList)) ∧
    seasonNormalize "5" = "05" ∧ seasonNormalize "12" = "12" :=
  ⟨c8_two_digit_pad "5" (by decide) (by decide) (by decide), by decide, by decide⟩

/-- C9: with a non-empty quality list, caption generation is total
(`send_batch` never fails), and position `i` receives label `i` when
`i < len(qualities)` and the last label otherwise. -/
theorem c9_quality_total (fmt title season epRaw : String) (qs : List String)
    (sticker : Option String) (batch : List String) (i : Nat) (h : qs ≠ []) :
    (sendBatch fmt title season qs sticker epRaw batch).isSome = true ∧
    (qualAt qs i).isSome = true ∧
    (i < qs.length → qualAt qs i = qs[i]?) ∧
    (qs.length ≤ i → qualAt qs i = some (qs.getLast h)) := by
  refine ⟨sendBatch_isSome_of_ne_nil fmt title season qs sticker h epRaw batch,
    qualAt_isSome qs h i, ?_, ?_⟩
  · intro hi
    rw [qualAt, if_pos hi]
  · intro hi
    rw [qualAt, if_neg (by omega), List.getLast?_eq_getLast qs h]

/-- C9, witness at the default quality list and index 1. -/
theorem c9_quality_total_witness :
    (sendBatch DEFAULT_FORMAT "T" "01" DEFAULT_QUALITIES none "1" ["x", "y"]).isSome = true ∧
    (qualAt DEFAULT_QUALITIES 1).isSome = true ∧
    (1 < DEFAULT_QUALITIES.length → qualAt DEFAULT_QUALITIES 1 = DEFAULT_QUALITIES[1]?) ∧
    (DEFAULT_QUALITIES.length ≤ 1 →
      qualAt DEFAULT_QUALITIES 1 = some (DEFAULT_QUALITIES.getLast (by decide))) :=
  c9_quality_total DEFAULT_FORMAT "T" "01" "1" DEFAULT_QUALITIES none ["x", "y"] 1 (by decide)

/-- C10: `/forseason` leaves the per-user collected video list unchanged
(only `/forepisode` clears it); leftover videos are kept, count toward the
new season's target of `n * 3`, and appear in the dispatched video events
ahead of the newly uploaded ones. -/
theorem c10_forseason_keeps_videos (chat : ChatData) (user : UserData) (v : Media)
    (n : Nat) (old more : List String) (text l1 l2 : String) (restL : List String)
    (hold : user.videos = some old)
    (hmime : mimeCategory v.mimeType = "video")
    (hl : splitLines (pyStrip text) = l1 :: l2 :: restL)
    (hlen : (old ++ more).length = 3 * n)
    (hq : chat.qualities.getD DEFAULT_QUALITIES ≠ []) :
    (forseasonStart chat user).2.1 = user ∧
    (forepisodeStart chat user).2.1.videos = none ∧
    (receiveVideos (forseasonStart chat user).1 user (some v)).1.videos =
      some (old ++ [v.fileId]) ∧
    (receiveVideos { (forseasonStart chat user).1 with seasonCount := some n }
        user (some v)).2 =
      some (if n * 3 ≤ old.length + 1 then ConvState.details else ConvState.videos) ∧
    (receiveDetailsCore { (forseasonStart chat user).1 with seasonCount := some n }
        ⟨some (old ++ more)⟩ text).isSome = true ∧
    videoFileIds ((receiveDetailsCore { (forseasonStart chat user).1 with seasonCount := some n }
        ⟨some (old ++ more)⟩ text).getD []) = old ++ more := by
  have hcore := receiveDetailsCore_season
    { (forseasonStart chat user).1 with seasonCount := some n } ⟨some (old ++ more)⟩ text
    n (old ++ more) l1 l2 restL rfl rfl rfl hq hl
  refine ⟨rfl, rfl, ?_, ?_, ?_, ?_⟩
  · simp [receiveVideos, forseasonStart, hmime, hold]
  · simp [receiveVideos, forseasonStart, hmime, hold]
  · rw [hcore]
    rfl
  · rw [hcore]
    exact season_fileIds _ _ _ _ _ (old ++ more) n hlen

/-- C10, witness: one leftover video `"x"` from an abandoned flow, then a
season of 1 episode completed with two fresh uploads. -/
theorem c10_forseason_keeps_videos_witness :
    (forseasonStart chatEpisodeBare ⟨some ["x"]⟩).2.1 = (⟨some ["x"]⟩ : UserData) ∧
    (forepisodeStart chatEpisodeBare ⟨some ["x"]⟩).2.1.videos = none ∧
    (receiveVideos (forseasonStart chatEpisodeBare ⟨some ["x"]⟩).1 ⟨some ["x"]⟩
        (some ⟨"v2", "video/mp4"⟩)).1.videos = some (["x"] ++ ["v2"]) ∧
    (receiveVideos { (forseasonStart chatEpisodeBare ⟨some ["x"]⟩).1 with seasonCount := some 1 }
        ⟨some ["x"]⟩ (some ⟨"v2", "video/mp4"⟩)).2 =
      some (if 1 * 3 ≤ List.length ["x"] + 1 then ConvState.details else ConvState.videos) ∧
    (receiveDetailsCore
        { (forseasonStart chatEpisodeBare ⟨some ["x"]⟩).1 with seasonCount := some 1 }
        ⟨some (["x"] ++ ["y", "z"])⟩ "Show\nS02").isSome = true ∧
    videoFileIds ((receiveDetailsCore
        { (forseasonStart chatEpisodeBare ⟨some ["x"]⟩).1 with seasonCount := some 1 }
        ⟨some (["x"] ++ ["y", "z"])⟩ "Show\nS02").getD []) = ["x"] ++ ["y", "z"] :=
  c10_forseason_keeps_videos chatEpisodeBare ⟨some ["x"]⟩ ⟨"v2", "video/mp4"⟩ 1
    ["x"] ["y", "z"] "Show\nS02" "Show" "S02" []
    rfl (by decide) (by decide) (by decide) (by decide)

end CaptionBot
